import Mathlib

/-!
Verification development for the HTU21D temperature and humidity sensor
driver.  The repository ships only the public header of the driver
(src/htu21d.h); the implementation file is absent, so every operation
below is modelled from the specification document, which describes the
data model, the command protocol, the CRC-8 validator, the conversion
formulas and the environmental math.
-/

/-- Status codes returned by bus-touching driver operations, matching the
C enumeration htu21_status in src/htu21d.h. -/
inductive htu21_status where
  | htu21_status_ok
  | htu21_status_no_i2c_acknowledge
  | htu21_status_i2c_transfer_error
  | htu21_status_crc_error
deriving DecidableEq, Repr

/-- Master-mode selector, matching the C enumeration htu21_i2c_master_mode. -/
inductive htu21_i2c_master_mode where
  | htu21_i2c_hold
  | htu21_i2c_no_hold
deriving DecidableEq, Repr

/-- ADC resolution selector, matching the C enumeration htu21_resolution. -/
inductive htu21_resolution where
  | htu21_resolution_t_14b_rh_12b
  | htu21_resolution_t_12b_rh_8b
  | htu21_resolution_t_13b_rh_10b
  | htu21_resolution_t_11b_rh_11b
deriving DecidableEq, Repr

/-- Battery status values, matching the C enumeration htu21_battery_status. -/
inductive htu21_battery_status where
  | htu21_battery_ok
  | htu21_battery_low
deriving DecidableEq, Repr

/-- Heater status values, matching the C enumeration htu21_heater_status. -/
inductive htu21_heater_status where
  | htu21_heater_off
  | htu21_heater_on
deriving DecidableEq, Repr

/-- Modelled from the spec: outcome of a one-byte bus read transaction
(the single-byte user-register read).  The transport adapter surfaces a
3-valued outcome: ok with the byte read, no-acknowledge, or transfer
error. -/
inductive bus_result1 where
  | ok (b : Nat)
  | no_ack
  | transfer_err
deriving DecidableEq, Repr

/-- Modelled from the spec: outcome of a bus write transaction. -/
inductive bus_write_result where
  | ok
  | no_ack
  | transfer_err
deriving DecidableEq, Repr

/-- Modelled from the spec: outcome of a 3-byte measurement read
(MSB, LSB, checksum byte). -/
inductive bus_result3 where
  | ok (msb lsb chk : Nat)
  | no_ack
  | transfer_err
deriving DecidableEq, Repr

/-- Modelled from the spec: outcome of the 8-byte serial-number part-A
read, laid out sn3, crc, sn2, crc, sn1, crc, sn0, crc. -/
inductive bus_result8 where
  | ok (b0 b1 b2 b3 b4 b5 b6 b7 : Nat)
  | no_ack
  | transfer_err
deriving DecidableEq, Repr

/-- Modelled from the spec: outcome of the 6-byte serial-number part-B
read, laid out sn5, sn4, crc, sn7, sn6, crc. -/
inductive bus_result6 where
  | ok (b0 b1 b2 b3 b4 b5 : Nat)
  | no_ack
  | transfer_err
deriving DecidableEq, Repr

/-- Modelled from the spec: one shift step of the CRC-8 computation with
polynomial 0x131 (x^8 + x^5 + x^4 + 1).  If the most significant bit of
the 8-bit accumulator is set, the shifted accumulator is reduced by
XOR-ing the polynomial; the accumulator is kept to 8 bits. -/
def crcStep (acc : Nat) : Nat :=
  if Nat.testBit acc 7 then ((acc * 2) ^^^ 0x131) % 256 else (acc * 2) % 256

/-- Modelled from the spec: absorb one message byte into the CRC
accumulator (XOR the byte in, then eight shift-and-reduce steps). -/
def crcByteStep (acc b : Nat) : Nat :=
  crcStep^[8] ((acc ^^^ b) % 256)

/-- Modelled from the spec: the CRC-8 of a byte sequence, processed
MSB-first with polynomial 0x131 and initial remainder 0. -/
def htu21_crc (bytes : List Nat) : Nat :=
  bytes.foldl crcByteStep 0

/-- Modelled from the spec: raw-to-physical temperature conversion.  The
low two status bits of the 16-bit raw word are masked to zero, then
T = -46.85 + 175.72 * raw / 2^16 degrees Celsius.  Exact rational
arithmetic stands in for the IEEE-754 single-precision arithmetic of the
C driver. -/
def htu21_temperature_from_raw (w : Nat) : ℚ :=
  -46.85 + 175.72 * ((w &&& 0xFFFC : Nat) : ℚ) / 2 ^ 16

/-- Modelled from the spec: raw-to-physical relative-humidity conversion.
The low two status bits are masked to zero, then
RH = -6.00 + 125.00 * raw / 2^16 percent. -/
def htu21_relative_humidity_from_raw (w : Nat) : ℚ :=
  -6.00 + 125.00 * ((w &&& 0xFFFC : Nat) : ℚ) / 2 ^ 16

/-- Modelled from the spec: temperature-compensated relative humidity,
RH_comp = RH + (25 - T) * (-0.15). -/
def htu21_compute_compensated_humidity (temperature relative_humidity : ℚ) : ℚ :=
  relative_humidity + (25 - temperature) * (-0.15)

/-- Modelled from the spec: the driver session state, holding the
currently selected resolution and master mode. -/
structure htu21_session where
  resolution : htu21_resolution
  mode : htu21_i2c_master_mode
deriving DecidableEq, Repr

/-- Modelled from the spec: driver initialisation sets the session to
resolution 14-bit T / 12-bit RH and no-hold mode, with no bus traffic. -/
def htu21_init : htu21_session :=
  ⟨.htu21_resolution_t_14b_rh_12b, .htu21_i2c_no_hold⟩

/-- Modelled from the spec: encoding of each resolution into bits 7 and 0
of the user register. -/
def htu21_resolution_user_reg_bits : htu21_resolution → Nat
  | .htu21_resolution_t_14b_rh_12b => 0x00
  | .htu21_resolution_t_12b_rh_8b => 0x01
  | .htu21_resolution_t_13b_rh_10b => 0x80
  | .htu21_resolution_t_11b_rh_11b => 0x81

/-- Modelled from the spec: the read-modify-write of the user register
performed by set_resolution.  Bits 7 and 0 of the previous value are
cleared and the resolution encoding is OR-ed in; all other bits are
preserved. -/
def htu21_updated_user_reg (u : Nat) (res : htu21_resolution) : Nat :=
  (u &&& 0x7E) ||| htu21_resolution_user_reg_bits res

/-- Result of a modelled set_resolution call: the surfaced status, the
session after the call, and the byte written to the user register when
the write-back transaction was issued. -/
structure set_resolution_result where
  status : htu21_status
  session : htu21_session
  written : Option Nat
deriving DecidableEq, Repr

/-- Modelled from the spec: set_resolution reads the user register,
clears bits 7 and 0, ORs in the bits for the requested resolution,
writes the byte back, and updates the session only when everything
succeeded; any transport failure leaves the session unchanged. -/
def htu21_set_resolution (reg_read : bus_result1) (reg_write : bus_write_result)
    (s : htu21_session) (res : htu21_resolution) : set_resolution_result :=
  match reg_read with
  | .no_ack => ⟨.htu21_status_no_i2c_acknowledge, s, none⟩
  | .transfer_err => ⟨.htu21_status_i2c_transfer_error, s, none⟩
  | .ok u =>
    match reg_write with
    | .no_ack =>
        ⟨.htu21_status_no_i2c_acknowledge, s, some (htu21_updated_user_reg u res)⟩
    | .transfer_err =>
        ⟨.htu21_status_i2c_transfer_error, s, some (htu21_updated_user_reg u res)⟩
    | .ok =>
        ⟨.htu21_status_ok, { s with resolution := res },
          some (htu21_updated_user_reg u res)⟩

/-- Result of a modelled temperature-and-humidity read: the surfaced
status, the two out-parameters after the call (they keep their previous
values unless the whole call succeeded), and whether the humidity
measurement transaction was attempted. -/
structure trh_result where
  status : htu21_status
  temperature : ℚ
  relative_humidity : ℚ
  humidity_attempted : Bool
deriving DecidableEq, Repr

/-- Modelled from the spec: read_temperature_and_relative_humidity
acquires the temperature first, then the humidity.  Each 3-byte response
is CRC-validated over its two data bytes; a mismatch returns a CRC error
without attempting the second measurement, and on any non-ok status the
out-parameters keep their previous values t0 and rh0. -/
def htu21_read_temperature_and_relative_humidity
    (t_resp rh_resp : bus_result3) (t0 rh0 : ℚ) : trh_result :=
  match t_resp with
  | .no_ack => ⟨.htu21_status_no_i2c_acknowledge, t0, rh0, false⟩
  | .transfer_err => ⟨.htu21_status_i2c_transfer_error, t0, rh0, false⟩
  | .ok m l c =>
    if htu21_crc [m, l] == c then
      match rh_resp with
      | .no_ack => ⟨.htu21_status_no_i2c_acknowledge, t0, rh0, true⟩
      | .transfer_err => ⟨.htu21_status_i2c_transfer_error, t0, rh0, true⟩
      | .ok hm hl hc =>
        if htu21_crc [hm, hl] == hc then
          ⟨.htu21_status_ok, htu21_temperature_from_raw (m * 256 + l),
            htu21_relative_humidity_from_raw (hm * 256 + hl), true⟩
        else ⟨.htu21_status_crc_error, t0, rh0, true⟩
    else ⟨.htu21_status_crc_error, t0, rh0, false⟩

/-- Modelled from the spec: all six CRC checks of the serial-number read.
In part A each CRC byte covers the 16-bit word holding the single
identifier byte that precedes it (high byte zero); in part B each CRC
byte covers the two identifier bytes that precede it. -/
def htu21_serial_crc_ok (sn3 c3 sn2 c2 sn1 c1 sn0 c0 sn5 sn4 c54 sn7 sn6 c76 : Nat) :
    Bool :=
  (htu21_crc [0, sn3] == c3) && (htu21_crc [0, sn2] == c2) &&
  (htu21_crc [0, sn1] == c1) && (htu21_crc [0, sn0] == c0) &&
  (htu21_crc [sn5, sn4] == c54) && (htu21_crc [sn7, sn6] == c76)

/-- Modelled from the spec: assembly of the 64-bit serial number with
byte ordering sn7 sn6 sn5 sn4 sn3 sn2 sn1 sn0, most significant first. -/
def htu21_assemble_serial (sn7 sn6 sn5 sn4 sn3 sn2 sn1 sn0 : Nat) : Nat :=
  sn7 * 2 ^ 56 + sn6 * 2 ^ 48 + sn5 * 2 ^ 40 + sn4 * 2 ^ 32 +
  sn3 * 2 ^ 24 + sn2 * 2 ^ 16 + sn1 * 2 ^ 8 + sn0

/-- Modelled from the spec: read_serial_number performs the part-A and
part-B identifier reads, validates every interleaved CRC byte, fails the
whole operation with a CRC error on any mismatch, and on success
assembles the 64-bit serial number MSB-first.  The out-parameter keeps
its previous value sn0 on any non-ok status. -/
def htu21_read_serial_number (part_a : bus_result8) (part_b : bus_result6)
    (sn_prev : Nat) : htu21_status × Nat :=
  match part_a with
  | .no_ack => (.htu21_status_no_i2c_acknowledge, sn_prev)
  | .transfer_err => (.htu21_status_i2c_transfer_error, sn_prev)
  | .ok sn3 c3 sn2 c2 sn1 c1 sn0 c0 =>
    match part_b with
    | .no_ack => (.htu21_status_no_i2c_acknowledge, sn_prev)
    | .transfer_err => (.htu21_status_i2c_transfer_error, sn_prev)
    | .ok sn5 sn4 c54 sn7 sn6 c76 =>
      if htu21_serial_crc_ok sn3 c3 sn2 c2 sn1 c1 sn0 c0 sn5 sn4 c54 sn7 sn6 c76 then
        (.htu21_status_ok, htu21_assemble_serial sn7 sn6 sn5 sn4 sn3 sn2 sn1 sn0)
      else (.htu21_status_crc_error, sn_prev)

/-- Modelled from the spec: get_battery_status reads the single-byte
user register (no CRC on the response) and reports battery low iff bit 6
is set; on a transport failure the out-parameter keeps its previous
value. -/
def htu21_get_battery_status (reg_read : bus_result1)
    (prev : htu21_battery_status) : htu21_status × htu21_battery_status :=
  match reg_read with
  | .no_ack => (.htu21_status_no_i2c_acknowledge, prev)
  | .transfer_err => (.htu21_status_i2c_transfer_error, prev)
  | .ok u =>
    (.htu21_status_ok,
      if u.testBit 6 then .htu21_battery_low else .htu21_battery_ok)

/-- Modelled from the spec: enable_heater performs a read-modify-write of
the user register setting bit 2, the on-chip heater enable. -/
def htu21_enable_heater (reg_read : bus_result1) (reg_write : bus_write_result) :
    htu21_status × Option Nat :=
  match reg_read with
  | .no_ack => (.htu21_status_no_i2c_acknowledge, none)
  | .transfer_err => (.htu21_status_i2c_transfer_error, none)
  | .ok u =>
    match reg_write with
    | .no_ack => (.htu21_status_no_i2c_acknowledge, some (u ||| 0x04))
    | .transfer_err => (.htu21_status_i2c_transfer_error, some (u ||| 0x04))
    | .ok => (.htu21_status_ok, some (u ||| 0x04))

/-- Modelled from the spec: disable_heater performs a read-modify-write
of the user register clearing bit 2. -/
def htu21_disable_heater (reg_read : bus_result1) (reg_write : bus_write_result) :
    htu21_status × Option Nat :=
  match reg_read with
  | .no_ack => (.htu21_status_no_i2c_acknowledge, none)
  | .transfer_err => (.htu21_status_i2c_transfer_error, none)
  | .ok u =>
    match reg_write with
    | .no_ack => (.htu21_status_no_i2c_acknowledge, some (u &&& 0xFB))
    | .transfer_err => (.htu21_status_i2c_transfer_error, some (u &&& 0xFB))
    | .ok => (.htu21_status_ok, some (u &&& 0xFB))

/-- Modelled from the spec: get_heater_status reads the single-byte user
register and reports the heater on iff bit 2 is set; on a transport
failure the out-parameter keeps its previous value. -/
def htu21_get_heater_status (reg_read : bus_result1)
    (prev : htu21_heater_status) : htu21_status × htu21_heater_status :=
  match reg_read with
  | .no_ack => (.htu21_status_no_i2c_acknowledge, prev)
  | .transfer_err => (.htu21_status_i2c_transfer_error, prev)
  | .ok u =>
    (.htu21_status_ok,
      if u.testBit 2 then .htu21_heater_on else .htu21_heater_off)

/-- Modelled from the spec: partial pressure at temperature T, the
Magnus-style term PP = 10 ^ (A - B / (T + C)) with the sensor constants
A = 8.1332, B = 1762.39, C = 235.66, over the real numbers. -/
noncomputable def htu21_vapor_pressure (t : ℝ) : ℝ :=
  (10 : ℝ) ^ ((8.1332 : ℝ) - 1762.39 / (t + 235.66))

/-- Modelled from the spec: dew point computed from temperature and
relative humidity, Td = -(B / (log10 (RH * PP / 100) - A) + C), with
log10 x = log x / log 10. -/
noncomputable def htu21_compute_dew_point (t rh : ℝ) : ℝ :=
  -(1762.39 / (Real.log (rh * htu21_vapor_pressure t / 100) / Real.log 10 - 8.1332)
      + 235.66)

/-- C1: appending the correct CRC to any byte sequence drives the CRC to
zero, and the computed CRC matches the two datasheet vectors:
crc [0x68, 0x3A] = 0x7C and crc [0x4E, 0x85] = 0x6B. -/
theorem htu21_crc_spec :
    (∀ B : List Nat, htu21_crc (B ++ [htu21_crc B]) = 0) ∧
    htu21_crc [0x68, 0x3A] = 0x7C ∧ htu21_crc [0x4E, 0x85] = 0x6B := by
  refine ⟨?_, by decide, by decide⟩
  intro B
  show List.foldl crcByteStep 0 (B ++ [htu21_crc B]) = 0
  rw [List.foldl_append]
  show crcByteStep (htu21_crc B) (htu21_crc B) = 0
  unfold crcByteStep
  rw [Nat.xor_self]
  decide

/-- Helper: for a 16-bit word, masking with 0xFFFC zeroes exactly the two
low bits, so the masked value is determined by the quotient by 4. -/
theorem and_mask_eq_div_mul (w : Nat) (h : w < 65536) : w &&& 65532 = w / 4 * 4 := by
  apply Nat.eq_of_testBit_eq
  intro i
  rw [Nat.testBit_and]
  rcases Nat.lt_or_ge i 16 with hi | hi
  · have hmul : w / 4 * 4 = (w >>> 2) <<< 2 := by
      rw [Nat.shiftLeft_eq, Nat.shiftRight_eq_div_pow]
    rw [hmul]
    interval_cases i <;>
      simp [Nat.testBit_shiftLeft, Nat.testBit_shiftRight] <;> intro _ <;> decide
  · have hle : (65536 : Nat) ≤ 2 ^ i := by
      calc (65536 : Nat) = 2 ^ 16 := by norm_num
        _ ≤ 2 ^ i := Nat.pow_le_pow_right (by norm_num) hi
    have h1 : w.testBit i = false := Nat.testBit_eq_false_of_lt (lt_of_lt_of_le h hle)
    have h2 : (w / 4 * 4).testBit i = false := by
      apply Nat.testBit_eq_false_of_lt
      exact lt_of_le_of_lt (Nat.div_mul_le_self w 4) (lt_of_lt_of_le h hle)
    rw [h1, h2, Bool.false_and]

/-- C2: the temperature conversion is -46.85 + 175.72 * (w AND 0xFFFC) / 2^16
and the humidity conversion is -6.00 + 125.00 * (w AND 0xFFFC) / 2^16, and
two 16-bit raw words that differ only in their low two status bits (equal
quotient by 4) convert to identical physical values. -/
theorem htu21_conversion_formula_and_status_bit_masking :
    (∀ w : Nat, htu21_temperature_from_raw w
        = -46.85 + 175.72 * ((w &&& 0xFFFC : Nat) : ℚ) / 2 ^ 16) ∧
    (∀ w : Nat, htu21_relative_humidity_from_raw w
        = -6.00 + 125.00 * ((w &&& 0xFFFC : Nat) : ℚ) / 2 ^ 16) ∧
    (∀ w1 w2 : Nat, w1 < 2 ^ 16 → w2 < 2 ^ 16 → w1 / 4 = w2 / 4 →
      htu21_temperature_from_raw w1 = htu21_temperature_from_raw w2 ∧
      htu21_relative_humidity_from_raw w1 = htu21_relative_humidity_from_raw w2) := by
  refine ⟨fun w => rfl, fun w => rfl, fun w1 w2 h1 h2 h => ?_⟩
  have hm : w1 &&& 0xFFFC = w2 &&& 0xFFFC := by
    rw [show (0xFFFC : Nat) = 65532 from rfl, and_mask_eq_div_mul w1 h1,
      and_mask_eq_div_mul w2 h2, h]
  unfold htu21_temperature_from_raw htu21_relative_humidity_from_raw
  rw [hm]
  exact ⟨rfl, rfl⟩

/-- Witness for C2 at the concrete raw words 0x683A and 0x683B, which
differ only in the low status bit. -/
theorem htu21_conversion_masking_witness :
    (0x683A : Nat) < 2 ^ 16 ∧ (0x683B : Nat) < 2 ^ 16 ∧
    (0x683A : Nat) / 4 = (0x683B : Nat) / 4 ∧
    htu21_temperature_from_raw 0x683A = htu21_temperature_from_raw 0x683B :=
  ⟨by decide, by decide, by decide,
    (htu21_conversion_formula_and_status_bit_masking.2.2 0x683A 0x683B
      (by decide) (by decide) (by decide)).1⟩

/-- Counterexample to C8 as stated: the raw words 0 and 1 satisfy 0 < 1
yet convert to identical temperature and humidity values, because the low
two status bits are masked before conversion. -/
theorem htu21_conversion_not_strictly_increasing :
    (0 : Nat) < 1 ∧
    htu21_temperature_from_raw 0 = htu21_temperature_from_raw 1 ∧
    htu21_relative_humidity_from_raw 0 = htu21_relative_humidity_from_raw 1 := by
  exact ⟨by decide, rfl, rfl⟩

/-- C8 (amended): both conversions are strictly increasing in the masked
raw input: whenever w1 AND 0xFFFC < w2 AND 0xFFFC, the converted
temperature and humidity values strictly increase. -/
theorem htu21_conversion_strictly_monotone_on_masked (w1 w2 : Nat)
    (h : w1 &&& 0xFFFC < w2 &&& 0xFFFC) :
    htu21_temperature_from_raw w1 < htu21_temperature_from_raw w2 ∧
    htu21_relative_humidity_from_raw w1 < htu21_relative_humidity_from_raw w2 := by
  have hq : ((w1 &&& 0xFFFC : Nat) : ℚ) < ((w2 &&& 0xFFFC : Nat) : ℚ) := by
    exact_mod_cast h
  unfold htu21_temperature_from_raw htu21_relative_humidity_from_raw
  constructor <;> nlinarith [hq]

/-- Witness for the amended C8 at the concrete raw words 0 and 4. -/
theorem htu21_conversion_monotone_witness :
    (0 &&& 0xFFFC : Nat) < (4 &&& 0xFFFC : Nat) ∧
    htu21_temperature_from_raw 0 < htu21_temperature_from_raw 4 :=
  ⟨by decide, (htu21_conversion_strictly_monotone_on_masked 0 4 (by decide)).1⟩

/-- Counterexample to C7 as stated: at T = 24, one degree below 25, the
compensated humidity of an RH reading of 50 is 49.85, which is below the
reading, refuting the gloss that the reading is adjusted upward as the
temperature falls below 25. -/
theorem htu21_compensated_humidity_direction_counterexample :
    htu21_compute_compensated_humidity 24 50 = 49.85 ∧ (49.85 : ℚ) < 50 := by
  constructor
  · norm_num [htu21_compute_compensated_humidity]
  · norm_num

/-- C7 (amended): the compensated humidity equals RH + (25 - T) * (-0.15);
equivalently the reading is adjusted downward by 0.15 percentage points
per degree Celsius below 25 and upward above 25. -/
theorem htu21_compensated_humidity_formula_and_direction (t rh : ℚ) :
    htu21_compute_compensated_humidity t rh = rh + (25 - t) * (-0.15) ∧
    (t < 25 → htu21_compute_compensated_humidity t rh < rh) ∧
    (25 < t → rh < htu21_compute_compensated_humidity t rh) := by
  refine ⟨rfl, ?_, ?_⟩ <;> intro h <;>
    unfold htu21_compute_compensated_humidity <;> nlinarith

/-- Witness for the amended C7 at T = 24 and RH = 50. -/
theorem htu21_compensated_humidity_witness :
    (24 : ℚ) < 25 ∧ htu21_compute_compensated_humidity 24 50 < 50 :=
  ⟨by norm_num,
    (htu21_compensated_humidity_formula_and_direction 24 50).2.1 (by norm_num)⟩

set_option maxRecDepth 8192 in
/-- Helper: bit-level description of the user-register byte produced by
set_resolution, for any 8-bit prior value. -/
theorem htu21_updated_user_reg_bits (res : htu21_resolution) :
    ∀ u < 256, (∀ i < 7, 1 ≤ i →
        (htu21_updated_user_reg u res).testBit i = u.testBit i) ∧
      (htu21_updated_user_reg u res).testBit 7
        = (htu21_resolution_user_reg_bits res).testBit 7 ∧
      (htu21_updated_user_reg u res).testBit 0
        = (htu21_resolution_user_reg_bits res).testBit 0 := by
  cases res <;> decide

/-- C4: when the user-register read returns the 8-bit value u, the byte
written back by set_resolution preserves bits 6 to 1 of u and carries the
requested resolution encoding in bits 7 and 0; concretely, prior value
0x3A with resolution 11/11 yields the written byte 0xBB. -/
theorem htu21_set_resolution_written_byte (reg_write : bus_write_result)
    (s : htu21_session) (res : htu21_resolution) (u : Nat) (hu : u < 256) :
    (htu21_set_resolution (.ok u) reg_write s res).written
      = some (htu21_updated_user_reg u res) ∧
    (∀ i < 7, 1 ≤ i → (htu21_updated_user_reg u res).testBit i = u.testBit i) ∧
    (htu21_updated_user_reg u res).testBit 7
      = (htu21_resolution_user_reg_bits res).testBit 7 ∧
    (htu21_updated_user_reg u res).testBit 0
      = (htu21_resolution_user_reg_bits res).testBit 0 ∧
    htu21_updated_user_reg 0x3A .htu21_resolution_t_11b_rh_11b = 0xBB := by
  obtain ⟨hbits, h7, h0⟩ := htu21_updated_user_reg_bits res u hu
  refine ⟨?_, hbits, h7, h0, by decide⟩
  cases reg_write <;> rfl

/-- Witness for C4: the S5 scenario, prior register value 0x3A and
resolution 11 bit T / 11 bit RH, where the written byte is 0xBB. -/
theorem htu21_set_resolution_written_byte_witness :
    (0x3A : Nat) < 256 ∧
    (htu21_set_resolution (.ok 0x3A) .ok htu21_init
        .htu21_resolution_t_11b_rh_11b).written
      = some (htu21_updated_user_reg 0x3A .htu21_resolution_t_11b_rh_11b) :=
  ⟨by decide,
    (htu21_set_resolution_written_byte .ok htu21_init
      .htu21_resolution_t_11b_rh_11b 0x3A (by decide)).1⟩

/-- C5: set_resolution is atomic with respect to the session: on any
non-ok status the session is unchanged, and after a successful call the
stored resolution equals the requested one. -/
theorem htu21_set_resolution_session_atomicity (reg_read : bus_result1)
    (reg_write : bus_write_result) (s : htu21_session) (res : htu21_resolution) :
    ((htu21_set_resolution reg_read reg_write s res).status ≠ .htu21_status_ok →
      (htu21_set_resolution reg_read reg_write s res).session = s) ∧
    ((htu21_set_resolution reg_read reg_write s res).status = .htu21_status_ok →
      (htu21_set_resolution reg_read reg_write s res).session.resolution = res) := by
  cases reg_read <;> cases reg_write <;> simp [htu21_set_resolution]

/-- Witness for C5: a failed register read leaves the default session
unchanged, and a fully successful call stores the requested resolution. -/
theorem htu21_set_resolution_session_atomicity_witness :
    (htu21_set_resolution .no_ack .ok htu21_init
        .htu21_resolution_t_12b_rh_8b).session = htu21_init ∧
    (htu21_set_resolution (.ok 0x3A) .ok htu21_init
        .htu21_resolution_t_12b_rh_8b).session.resolution
      = .htu21_resolution_t_12b_rh_8b :=
  ⟨(htu21_set_resolution_session_atomicity .no_ack .ok htu21_init
      .htu21_resolution_t_12b_rh_8b).1 (by decide),
    (htu21_set_resolution_session_atomicity (.ok 0x3A) .ok htu21_init
      .htu21_resolution_t_12b_rh_8b).2 (by decide)⟩

/-- C3: for every transport and response outcome, whenever a modelled
bus-touching operation with out-parameters returns a non-ok status, the
out-parameters keep their previous values; in particular a CRC mismatch
on the temperature response yields a CRC error without attempting the
humidity measurement. -/
theorem htu21_error_leaves_out_parameters_untouched
    (t_resp rh_resp : bus_result3) (t0 rh0 : ℚ)
    (part_a : bus_result8) (part_b : bus_result6) (sn_prev : Nat)
    (reg_read : bus_result1) (bprev : htu21_battery_status)
    (hprev : htu21_heater_status) :
    ((htu21_read_temperature_and_relative_humidity t_resp rh_resp t0 rh0).status
        ≠ .htu21_status_ok →
      (htu21_read_temperature_and_relative_humidity t_resp rh_resp t0 rh0).temperature
          = t0 ∧
      (htu21_read_temperature_and_relative_humidity t_resp rh_resp t0 rh0).relative_humidity
          = rh0) ∧
    (∀ m l c, t_resp = .ok m l c → htu21_crc [m, l] ≠ c →
      (htu21_read_temperature_and_relative_humidity t_resp rh_resp t0 rh0).status
          = .htu21_status_crc_error ∧
      (htu21_read_temperature_and_relative_humidity t_resp rh_resp t0 rh0).humidity_attempted
          = false) ∧
    ((htu21_read_serial_number part_a part_b sn_prev).1 ≠ .htu21_status_ok →
      (htu21_read_serial_number part_a part_b sn_prev).2 = sn_prev) ∧
    ((htu21_get_battery_status reg_read bprev).1 ≠ .htu21_status_ok →
      (htu21_get_battery_status reg_read bprev).2 = bprev) ∧
    ((htu21_get_heater_status reg_read hprev).1 ≠ .htu21_status_ok →
      (htu21_get_heater_status reg_read hprev).2 = hprev) := by
  refine ⟨?_, ?_, ?_, ?_, ?_⟩
  · cases t_resp <;> cases rh_resp <;>
      simp [htu21_read_temperature_and_relative_humidity] <;>
      split_ifs <;> simp_all
  · intro m l c heq hcrc
    subst heq
    have hb : (htu21_crc [m, l] == c) = false := by
      simpa using hcrc
    simp [htu21_read_temperature_and_relative_humidity, hb]
  · cases part_a <;> cases part_b <;>
      simp [htu21_read_serial_number] <;> split_ifs <;> simp_all
  · cases reg_read <;> simp [htu21_get_battery_status]
  · cases reg_read <;> simp [htu21_get_heater_status]

/-- Witness for C3: the S3 scenario, a temperature response with its
checksum corrupted to 0x7D, leaves both out-parameters at their previous
value 0, surfaces a CRC error and does not attempt the humidity
measurement. -/
theorem htu21_error_untouched_witness :
    ((htu21_read_temperature_and_relative_humidity (.ok 0x68 0x3A 0x7D)
        (.ok 0x4E 0x85 0x6B) 0 0).temperature = 0 ∧
      (htu21_read_temperature_and_relative_humidity (.ok 0x68 0x3A 0x7D)
        (.ok 0x4E 0x85 0x6B) 0 0).relative_humidity = 0) ∧
    (htu21_read_temperature_and_relative_humidity (.ok 0x68 0x3A 0x7D)
        (.ok 0x4E 0x85 0x6B) 0 0).status = .htu21_status_crc_error ∧
    (htu21_read_temperature_and_relative_humidity (.ok 0x68 0x3A 0x7D)
        (.ok 0x4E 0x85 0x6B) 0 0).humidity_attempted = false :=
  ⟨(htu21_error_leaves_out_parameters_untouched (.ok 0x68 0x3A 0x7D)
      (.ok 0x4E 0x85 0x6B) 0 0 .no_ack .no_ack 0 .no_ack
      .htu21_battery_ok .htu21_heater_off).1 (by decide),
    (htu21_error_leaves_out_parameters_untouched (.ok 0x68 0x3A 0x7D)
      (.ok 0x4E 0x85 0x6B) 0 0 .no_ack .no_ack 0 .no_ack
      .htu21_battery_ok .htu21_heater_off).2.1 0x68 0x3A 0x7D rfl (by decide)⟩

/-- C6: read_serial_number checks every interleaved CRC byte (four in
part A, two in part B) against the data preceding it; any single mismatch
makes the whole operation return a CRC error with the out-parameter
untouched, and on success the 64-bit result carries sn7 in the most
significant byte down to sn0 in the least significant byte. -/
theorem htu21_read_serial_number_spec
    (sn3 c3 sn2 c2 sn1 c1 sn0 c0 sn5 sn4 c54 sn7 sn6 c76 sn_prev : Nat)
    (h7 : sn7 < 256) (h6 : sn6 < 256) (h5 : sn5 < 256) (h4 : sn4 < 256)
    (h3 : sn3 < 256) (h2 : sn2 < 256) (h1 : sn1 < 256) (h0 : sn0 < 256) :
    (htu21_serial_crc_ok sn3 c3 sn2 c2 sn1 c1 sn0 c0 sn5 sn4 c54 sn7 sn6 c76 = true ↔
      (htu21_crc [0, sn3] = c3 ∧ htu21_crc [0, sn2] = c2 ∧
        htu21_crc [0, sn1] = c1 ∧ htu21_crc [0, sn0] = c0 ∧
        htu21_crc [sn5, sn4] = c54 ∧ htu21_crc [sn7, sn6] = c76)) ∧
    (htu21_serial_crc_ok sn3 c3 sn2 c2 sn1 c1 sn0 c0 sn5 sn4 c54 sn7 sn6 c76 = false →
      htu21_read_serial_number (.ok sn3 c3 sn2 c2 sn1 c1 sn0 c0)
          (.ok sn5 sn4 c54 sn7 sn6 c76) sn_prev
        = (.htu21_status_crc_error, sn_prev)) ∧
    (htu21_serial_crc_ok sn3 c3 sn2 c2 sn1 c1 sn0 c0 sn5 sn4 c54 sn7 sn6 c76 = true →
      (htu21_read_serial_number (.ok sn3 c3 sn2 c2 sn1 c1 sn0 c0)
          (.ok sn5 sn4 c54 sn7 sn6 c76) sn_prev).1 = .htu21_status_ok ∧
      (htu21_read_serial_number (.ok sn3 c3 sn2 c2 sn1 c1 sn0 c0)
          (.ok sn5 sn4 c54 sn7 sn6 c76) sn_prev).2 / 2 ^ 56 % 256 = sn7 ∧
      (htu21_read_serial_number (.ok sn3 c3 sn2 c2 sn1 c1 sn0 c0)
          (.ok sn5 sn4 c54 sn7 sn6 c76) sn_prev).2 / 2 ^ 48 % 256 = sn6 ∧
      (htu21_read_serial_number (.ok sn3 c3 sn2 c2 sn1 c1 sn0 c0)
          (.ok sn5 sn4 c54 sn7 sn6 c76) sn_prev).2 / 2 ^ 40 % 256 = sn5 ∧
      (htu21_read_serial_number (.ok sn3 c3 sn2 c2 sn1 c1 sn0 c0)
          (.ok sn5 sn4 c54 sn7 sn6 c76) sn_prev).2 / 2 ^ 32 % 256 = sn4 ∧
      (htu21_read_serial_number (.ok sn3 c3 sn2 c2 sn1 c1 sn0 c0)
          (.ok sn5 sn4 c54 sn7 sn6 c76) sn_prev).2 / 2 ^ 24 % 256 = sn3 ∧
      (htu21_read_serial_number (.ok sn3 c3 sn2 c2 sn1 c1 sn0 c0)
          (.ok sn5 sn4 c54 sn7 sn6 c76) sn_prev).2 / 2 ^ 16 % 256 = sn2 ∧
      (htu21_read_serial_number (.ok sn3 c3 sn2 c2 sn1 c1 sn0 c0)
          (.ok sn5 sn4 c54 sn7 sn6 c76) sn_prev).2 / 2 ^ 8 % 256 = sn1 ∧
      (htu21_read_serial_number (.ok sn3 c3 sn2 c2 sn1 c1 sn0 c0)
          (.ok sn5 sn4 c54 sn7 sn6 c76) sn_prev).2 % 256 = sn0) := by
  refine ⟨?_, ?_, ?_⟩
  · simp [htu21_serial_crc_ok, Bool.and_eq_true, beq_iff_eq, and_assoc]
  · intro hfail
    simp [htu21_read_serial_number, hfail]
  · intro hok
    have hserial : htu21_read_serial_number (.ok sn3 c3 sn2 c2 sn1 c1 sn0 c0)
        (.ok sn5 sn4 c54 sn7 sn6 c76) sn_prev
        = (.htu21_status_ok, htu21_assemble_serial sn7 sn6 sn5 sn4 sn3 sn2 sn1 sn0) := by
      simp [htu21_read_serial_number, hok]
    rw [hserial]
    refine ⟨rfl, ?_, ?_, ?_, ?_, ?_, ?_, ?_, ?_⟩ <;>
      simp only [htu21_assemble_serial] <;> omega

/-- Witness for C6: an all-zero identifier stream (whose interleaved CRC
bytes are all zero) succeeds, and corrupting the first CRC byte to 1
fails the whole operation with a CRC error, leaving the out-parameter at
its previous value 7. -/
theorem htu21_read_serial_number_witness :
    htu21_read_serial_number (.ok 0 1 0 0 0 0 0 0) (.ok 0 0 0 0 0 0) 7
      = (.htu21_status_crc_error, 7) ∧
    (htu21_read_serial_number (.ok 0 0 0 0 0 0 0 0) (.ok 0 0 0 0 0 0) 7).1
      = .htu21_status_ok :=
  ⟨(htu21_read_serial_number_spec 0 1 0 0 0 0 0 0 0 0 0 0 0 0 7
      (by decide) (by decide) (by decide) (by decide) (by decide) (by decide)
      (by decide) (by decide)).2.1 (by decide),
    ((htu21_read_serial_number_spec 0 0 0 0 0 0 0 0 0 0 0 0 0 0 7
      (by decide) (by decide) (by decide) (by decide) (by decide) (by decide)
      (by decide) (by decide)).2.2 (by decide)).1⟩

/-- C10: the user-register-based operations get_battery_status,
enable_heater, disable_heater and get_heater_status surface only ok,
no-acknowledge or transfer-error for every transport outcome; the
single-byte user-register read carries no CRC, so no CRC error can
occur. -/
theorem htu21_user_register_ops_status_range (reg_read : bus_result1)
    (reg_write : bus_write_result) (bprev : htu21_battery_status)
    (hprev : htu21_heater_status) :
    ((htu21_get_battery_status reg_read bprev).1 = .htu21_status_ok ∨
      (htu21_get_battery_status reg_read bprev).1 = .htu21_status_no_i2c_acknowledge ∨
      (htu21_get_battery_status reg_read bprev).1 = .htu21_status_i2c_transfer_error) ∧
    ((htu21_enable_heater reg_read reg_write).1 = .htu21_status_ok ∨
      (htu21_enable_heater reg_read reg_write).1 = .htu21_status_no_i2c_acknowledge ∨
      (htu21_enable_heater reg_read reg_write).1 = .htu21_status_i2c_transfer_error) ∧
    ((htu21_disable_heater reg_read reg_write).1 = .htu21_status_ok ∨
      (htu21_disable_heater reg_read reg_write).1 = .htu21_status_no_i2c_acknowledge ∨
      (htu21_disable_heater reg_read reg_write).1 = .htu21_status_i2c_transfer_error) ∧
    ((htu21_get_heater_status reg_read hprev).1 = .htu21_status_ok ∨
      (htu21_get_heater_status reg_read hprev).1 = .htu21_status_no_i2c_acknowledge ∨
      (htu21_get_heater_status reg_read hprev).1 = .htu21_status_i2c_transfer_error) := by
  cases reg_read <;> cases reg_write <;>
    simp [htu21_get_battery_status, htu21_enable_heater, htu21_disable_heater,
      htu21_get_heater_status]

/-- C9: at saturation the dew point reproduces the temperature: for every
T between -10 and 60 degrees Celsius, the Magnus-style dew point at
RH = 100 differs from T by at most 0.1 degrees (in the exact real-number
model it is equal to T). -/
theorem htu21_dew_point_saturation (t : ℝ) (hlo : (-10 : ℝ) ≤ t) (hhi : t ≤ 60) :
    |htu21_compute_dew_point t 100 - t| ≤ 0.1 := by
  have hden : (0 : ℝ) < t + 235.66 := by linarith
  have hden0 : t + 235.66 ≠ 0 := ne_of_gt hden
  have hlog10 : Real.log 10 ≠ 0 := ne_of_gt (Real.log_pos (by norm_num))
  have h100 : (100 : ℝ) * htu21_vapor_pressure t / 100 = htu21_vapor_pressure t := by
    ring
  have hlog : Real.log (htu21_vapor_pressure t)
      = ((8.1332 : ℝ) - 1762.39 / (t + 235.66)) * Real.log 10 :=
    Real.log_rpow (by norm_num) _
  have hdp : htu21_compute_dew_point t 100 = t := by
    unfold htu21_compute_dew_point
    rw [h100, hlog, mul_div_cancel_right₀ _ hlog10]
    have hq : (8.1332 : ℝ) - 1762.39 / (t + 235.66) - 8.1332
        = -(1762.39 / (t + 235.66)) := by ring
    rw [hq, div_neg, div_div_eq_mul_div, mul_comm, mul_div_assoc,
      div_self (by norm_num : (1762.39 : ℝ) ≠ 0), mul_one]
    ring
  rw [hdp]
  simp
  norm_num

/-- Witness for C9 at the concrete temperature T = 25. -/
theorem htu21_dew_point_saturation_witness :
    ((-10 : ℝ) ≤ 25 ∧ (25 : ℝ) ≤ 60) ∧
    |htu21_compute_dew_point 25 100 - 25| ≤ 0.1 :=
  ⟨⟨by norm_num, by norm_num⟩,
    htu21_dew_point_saturation 25 (by norm_num) (by norm_num)⟩
